import Mathlib

/-!
Verification development for the VAE-GAN model builder in `vaegan/models.py`.

The single source file defines `create_models(recon_vs_gan_weight, wdecay,
bn_mom, bn_eps)`, which assembles three weight-bearing networks (encoder,
decoder, discriminator), a stochastic latent sampler, and five composite
graphs, and returns them together with the three networks.

The embedding has three parts:

1. Layer configurations (`Layer`, the per-network layer lists): each Keras
   layer constructor call is recorded with the hyperparameters it receives
   (kernel regularizer coefficient, initializer, batch-norm momentum and
   epsilon, activations), exactly as written in the source.  Shape
   propagation (`outShape`, `shapeThrough`) models Keras "same"-padding
   strided convolutions and transposed convolutions.

2. A symbolic computation graph (`TExpr`, `LossExpr`, `Graph`, `Models`,
   `graphsOf`, `create_models`): the tensor nodes built at lines 110-148 of
   the source, with the discriminator's two outputs indexed by `Fin 2`
   (`0` = sigmoid realism score, `1` = intermediate feature tensor).
   `evalT` gives the graph a denotational semantics parameterized by a
   `NetSem`, one semantic function per instantiated network; the single
   `NetSem` field per network mirrors the single Keras instantiation of
   each network, so weight sharing across composite graphs is reflected by
   the same field interpreting every invocation.

3. Concrete numeric semantics over the reals for the pieces whose formulas
   the source spells out: the reparameterization sampler `sampling`
   (lines 60-72), the KL divergence loss `kl_loss` (line 133), and the
   loss-scaling semantics `lossVal` (lines 140-142).  Hyperparameters are
   modelled as rationals; Python's `ZeroDivisionError` in the normalization
   `w / (1. - w)` is modelled by `Option` (`normalized_weight`).
-/

namespace VaeGan

/-- Tensor shapes: `t3 h w c` is a rank-3 feature map, `t1 n` a flat vector. -/
inductive Shape
  | t3 (h w c : ℕ)
  | t1 (n : ℕ)
deriving DecidableEq

/-- Activation functions appearing in the source. -/
inductive Act
  | relu
  | tanh
  | sigmoid
deriving DecidableEq

/-- Kernel initializers: the source always passes `'he_uniform'`; Keras
would default to Glorot-uniform if the argument were omitted. -/
inductive Initializer
  | he_uniform
  | glorot_uniform
deriving DecidableEq

/-- One Keras layer call, with the configuration the source passes to it.
`reg` is the L2 kernel-regularizer coefficient (`none` when the call passes
no `kernel_regularizer`).  All convolutions in the source use kernel size 5
and `'same'` padding, so padding is not recorded. -/
inductive Layer
  | conv2d (filters kernel strides : ℕ) (reg : Option ℚ) (init : Initializer) (act : Option Act)
  | conv2dT (filters kernel strides : ℕ) (reg : Option ℚ) (init : Initializer)
  | batchNorm (momentum epsilon : ℚ)
  | leakyReLU (alpha : ℚ)
  | activation (a : Act)
  | flatten
  | dense (units : ℕ) (reg : Option ℚ) (init : Initializer) (act : Option Act)
  | reshape (s : Shape)
deriving DecidableEq

/-- Keras `BatchNormalization()` default momentum. -/
def bnDefaultMomentum : ℚ := 99 / 100

/-- Keras `BatchNormalization()` default epsilon. -/
def bnDefaultEpsilon : ℚ := 1 / 1000

/-- `leaky_relu_alpha = 0.2` (source line 24). -/
def leaky_relu_alpha : ℚ := 1 / 5

/-- `conv_block` (source lines 26-38): a strided convolution (transposed
when `transpose`), batch normalization with the caller's `bn_mom`/`bn_eps`,
and LeakyReLU (or ReLU when `leaky` is false). -/
def conv_block_layers (filters : ℕ) (wdecay bn_mom bn_eps : ℚ)
    (leaky transpose : Bool) : List Layer :=
  [ if transpose then
      Layer.conv2dT filters 5 2 (some wdecay) Initializer.he_uniform
    else
      Layer.conv2d filters 5 2 (some wdecay) Initializer.he_uniform none,
    Layer.batchNorm bn_mom bn_eps,
    if leaky then Layer.leakyReLU leaky_relu_alpha else Layer.activation Act.relu ]

/-- The encoder's layer calls (`create_encoder`, source lines 41-55): three
conv blocks (64, 128, 256), flatten, dense to 1024 with a default
`BatchNormalization()` and LeakyReLU, then the two parallel latent heads
`z_mean` and `z_log_var` (source lines 52-53), listed last.  The heads are
built with `kernel_initializer='he_uniform'` and no `kernel_regularizer`. -/
def encoderLayers (wdecay bn_mom bn_eps : ℚ) : List Layer :=
  conv_block_layers 64 wdecay bn_mom bn_eps true false
  ++ conv_block_layers 128 wdecay bn_mom bn_eps true false
  ++ conv_block_layers 256 wdecay bn_mom bn_eps true false
  ++ [ Layer.flatten,
       Layer.dense 1024 (some wdecay) Initializer.he_uniform none,
       Layer.batchNorm bnDefaultMomentum bnDefaultEpsilon,
       Layer.leakyReLU leaky_relu_alpha,
       Layer.dense 128 none Initializer.he_uniform none,
       Layer.dense 128 none Initializer.he_uniform none ]

/-- The decoder `Sequential` (source lines 77-86): dense to 16384 with a
default `BatchNormalization()`, reshape to 8x8x256, three transposed conv
blocks (256, 128, 32), and the final `tanh` output convolution. -/
def decoderLayers (wdecay bn_mom bn_eps : ℚ) : List Layer :=
  [ Layer.dense 16384 (some wdecay) Initializer.he_uniform none,
    Layer.batchNorm bnDefaultMomentum bnDefaultEpsilon,
    Layer.leakyReLU leaky_relu_alpha,
    Layer.reshape (Shape.t3 8 8 256) ]
  ++ conv_block_layers 256 wdecay bn_mom bn_eps true true
  ++ conv_block_layers 128 wdecay bn_mom bn_eps true true
  ++ conv_block_layers 32 wdecay bn_mom bn_eps true true
  ++ [ Layer.conv2d 3 5 1 (some wdecay) Initializer.he_uniform (some Act.tanh) ]

/-- The discriminator's layer calls up to and including the convolution
whose output is tapped as `d_feat` (source lines 92-96): an unnormalized
stride-1 32-channel convolution with LeakyReLU, two full conv blocks
(128, 256), then the bare 256-channel stride-2 convolution taken from
`conv_block(None, 256)` - only its first layer is applied, so `d_feat` is
the pre-normalization activation of that stage. -/
def discFeatStack (wdecay bn_mom bn_eps : ℚ) : List Layer :=
  [ Layer.conv2d 32 5 1 (some wdecay) Initializer.he_uniform none,
    Layer.leakyReLU leaky_relu_alpha ]
  ++ conv_block_layers 128 wdecay bn_mom bn_eps true false
  ++ conv_block_layers 256 wdecay bn_mom bn_eps true false
  ++ [ Layer.conv2d 256 5 2 (some wdecay) Initializer.he_uniform none ]

/-- The discriminator's layer calls after the batch normalization and
LeakyReLU that follow `d_feat` (source lines 99-103): flatten, dense to 512
with a default `BatchNormalization()` and LeakyReLU, final dense to 1 with
sigmoid. -/
def discScoreTail (wdecay : ℚ) : List Layer :=
  [ Layer.flatten,
    Layer.dense 512 (some wdecay) Initializer.he_uniform none,
    Layer.batchNorm bnDefaultMomentum bnDefaultEpsilon,
    Layer.leakyReLU leaky_relu_alpha,
    Layer.dense 1 (some wdecay) Initializer.he_uniform (some Act.sigmoid) ]

/-- The full discriminator layer sequence (`create_discriminator`, source
lines 89-105): the feature stack, then `BatchNormalization(momentum=bn_mom,
epsilon=bn_eps)` and LeakyReLU applied to `d_feat` (source lines 97-98),
then the score tail. -/
def discriminatorLayers (wdecay bn_mom bn_eps : ℚ) : List Layer :=
  discFeatStack wdecay bn_mom bn_eps
  ++ (Layer.batchNorm bn_mom bn_eps :: Layer.leakyReLU leaky_relu_alpha ::
      discScoreTail wdecay)

/-- The kernel configuration (initializer, L2 coefficient) of a layer, when
the layer has a kernel. -/
def kernelCfg : Layer → Option (Initializer × Option ℚ)
  | Layer.conv2d _ _ _ r i _ => some (i, r)
  | Layer.conv2dT _ _ _ r i => some (i, r)
  | Layer.dense _ r i _ => some (i, r)
  | _ => none

/-- The (momentum, epsilon) configuration of a batch-normalization layer. -/
def bnCfg : Layer → Option (ℚ × ℚ)
  | Layer.batchNorm m e => some (m, e)
  | _ => none

/-- Volume of a shape (number of scalar entries). -/
def Shape.vol : Shape → ℕ
  | Shape.t3 h w c => h * w * c
  | Shape.t1 n => n

/-- Output shape of one layer on a given input shape, following Keras:
a `'same'`-padded convolution with stride `s` maps spatial size `n` to
`ceil(n / s)`, a `'same'`-padded transposed convolution with stride `s`
maps `n` to `n * s`, `Flatten` multiplies the dimensions out, `Dense`
replaces the vector length, and `Reshape` requires equal volume. -/
def outShape : Layer → Shape → Option Shape
  | Layer.conv2d f _ s _ _ _, Shape.t3 h w _ =>
      some (Shape.t3 ((h + s - 1) / s) ((w + s - 1) / s) f)
  | Layer.conv2dT f _ s _ _, Shape.t3 h w _ =>
      some (Shape.t3 (h * s) (w * s) f)
  | Layer.batchNorm _ _, sh => some sh
  | Layer.leakyReLU _, sh => some sh
  | Layer.activation _, sh => some sh
  | Layer.flatten, Shape.t3 h w c => some (Shape.t1 (h * w * c))
  | Layer.flatten, Shape.t1 n => some (Shape.t1 n)
  | Layer.dense u _ _ _, Shape.t1 _ => some (Shape.t1 u)
  | Layer.reshape sh, Shape.t1 n => if sh.vol = n then some sh else none
  | _, _ => none

/-- Shape after threading an input shape through a list of layers. -/
def shapeThrough (ls : List Layer) (s : Shape) : Option Shape :=
  ls.foldl (fun acc l => acc.bind (outShape l)) (some s)

/-- Symbolic tensor nodes of the computation graph built at source lines
110-125.  `encOut i`/`disOut i` are the `i`-th output of the (single)
encoder/discriminator instance: for the discriminator, index 0 is the
sigmoid realism score and index 1 the `d_feat` feature tensor.  `epsE` is
the `K.random_normal` noise draw consumed by the sampler. -/
inductive TExpr
  | inputX
  | inputZp
  | epsE
  | encOut (i : Fin 2) (t : TExpr)
  | sampleE (m v e : TExpr)
  | decOut (t : TExpr)
  | disOut (i : Fin 2) (t : TExpr)
deriving DecidableEq

/-- The graph input `x` (source line 111). -/
def xE : TExpr := TExpr.inputX

/-- The graph input `z_p` (source line 113). -/
def zpE : TExpr := TExpr.inputZp

/-- `z_mean` node (source line 117). -/
def zMeanE : TExpr := TExpr.encOut 0 xE

/-- `z_log_var` node (source line 117). -/
def zLogVarE : TExpr := TExpr.encOut 1 xE

/-- `z = sampler([z_mean, z_log_var])` (source line 118), with the noise
draw made explicit. -/
def zE : TExpr := TExpr.sampleE zMeanE zLogVarE TExpr.epsE

/-- `x_tilde = decoder(z)` (source line 120). -/
def xTildeE : TExpr := TExpr.decOut zE

/-- `x_p = decoder(z_p)` (source line 121). -/
def xPE : TExpr := TExpr.decOut zpE

/-- Whether the node is a discriminator realism score (output index 0). -/
def isScore : TExpr → Bool
  | TExpr.disOut i _ => decide (i = (0 : Fin 2))
  | _ => false

/-- Whether a discriminator feature output (`disOut 1`) occurs anywhere in
the expression. -/
def mentionsFeature : TExpr → Bool
  | TExpr.inputX => false
  | TExpr.inputZp => false
  | TExpr.epsE => false
  | TExpr.encOut _ t => mentionsFeature t
  | TExpr.sampleE a b c => mentionsFeature a || mentionsFeature b || mentionsFeature c
  | TExpr.decOut t => mentionsFeature t
  | TExpr.disOut i t => decide (i = (1 : Fin 2)) || mentionsFeature t

/-- Loss expressions bound to models by `add_loss` (source lines 129-142):
the KL divergence term, the feature-space Gaussian negative log-likelihood
(`dis_nll_loss`), and a scalar multiple of a loss. -/
inductive LossExpr
  | kl (m v : TExpr)
  | nll (a b : TExpr)
  | scale (c : ℚ) (l : LossExpr)
deriving DecidableEq

/-- Numeric value of a bound loss, given the value `nllV` of the feature
similarity loss and `klV` of the KL loss on the current batch. -/
noncomputable def lossVal (nllV klV : ℝ) : LossExpr → ℝ
  | LossExpr.kl _ _ => klV
  | LossExpr.nll _ _ => nllV
  | LossExpr.scale c l => (c : ℝ) * lossVal nllV klV l

/-- One returned Keras `Model`: its name, formal inputs, output nodes, and
the losses bound to it with `add_loss`. -/
structure Graph where
  name : String
  inputs : List TExpr
  outputs : List TExpr
  losses : List LossExpr
deriving DecidableEq

/-- The eight models returned by `create_models` (source line 150). -/
structure Models where
  encoder : Graph
  decoder : Graph
  discriminator : Graph
  encoder_train : Graph
  decoder_train : Graph
  discriminator_train : Graph
  vae : Graph
  vaegan : Graph
deriving DecidableEq

/-- The returned tuple, in the order of source line 150. -/
def Models.toList (m : Models) : List Graph :=
  [ m.encoder, m.decoder, m.discriminator, m.encoder_train, m.decoder_train,
    m.discriminator_train, m.vae, m.vaegan ]

/-- The models built at source lines 107-150, reached once the
normalization division has succeeded.  `encoder_train` receives the KL loss
then the feature similarity loss (source lines 137-138); `decoder_train`
receives the similarity loss scaled by
`recon_vs_gan_weight / (1 - recon_vs_gan_weight)` (source lines 141-142). -/
def graphsOf (recon_vs_gan_weight wdecay bn_mom bn_eps : ℚ) : Models :=
  let nw : ℚ := recon_vs_gan_weight / (1 - recon_vs_gan_weight)
  { encoder := ⟨"encoder", [xE], [zMeanE, zLogVarE], []⟩
    decoder := ⟨"decoder", [zpE], [TExpr.decOut zpE], []⟩
    discriminator := ⟨"discriminator", [xE], [TExpr.disOut 0 xE, TExpr.disOut 1 xE], []⟩
    encoder_train := ⟨"e", [xE], [TExpr.disOut 1 xTildeE],
      [LossExpr.kl zMeanE zLogVarE,
       LossExpr.nll (TExpr.disOut 1 xE) (TExpr.disOut 1 xTildeE)]⟩
    decoder_train := ⟨"de", [xE, zpE], [TExpr.disOut 0 xTildeE, TExpr.disOut 0 xPE],
      [LossExpr.scale nw (LossExpr.nll (TExpr.disOut 1 xE) (TExpr.disOut 1 xTildeE))]⟩
    discriminator_train := ⟨"di", [xE, zpE],
      [TExpr.disOut 0 xE, TExpr.disOut 0 xTildeE, TExpr.disOut 0 xPE], []⟩
    vae := ⟨"vae", [xE], [xTildeE], []⟩
    vaegan := ⟨"vaegan", [xE], [TExpr.disOut 0 xTildeE], []⟩ }

/-- The normalization `recon_vs_gan_weight / (1. - recon_vs_gan_weight)`
(source line 141).  Python float division raises `ZeroDivisionError` when
the denominator is zero, modelled by `none`. -/
def normalized_weight (w : ℚ) : Option ℚ :=
  if 1 - w = 0 then none else some (w / (1 - w))

/-- `create_models` (source lines 14-150): no guard inspects
`recon_vs_gan_weight`; the only way the call fails is the division by zero
in the normalization, which aborts the call before anything is returned. -/
def create_models (recon_vs_gan_weight wdecay bn_mom bn_eps : ℚ) : Option Models :=
  if 1 - recon_vs_gan_weight = 0 then none
  else some (graphsOf recon_vs_gan_weight wdecay bn_mom bn_eps)

/-- `latent_dim = 128` (source line 20). -/
def latent_dim : ℕ := 128

/-- A latent-space vector (`z_mean`, `z_log_var`, `epsilon`, `z`). -/
abbrev Lat : Type := Fin latent_dim → ℝ

/-- `sampling` (source lines 60-72): the reparameterization
`z_mean + exp(0.5 * z_log_var) * epsilon`, with the `K.random_normal` draw
`epsilon` passed explicitly. -/
noncomputable def sampling (z_mean z_log_var epsilon : Lat) : Lat :=
  fun i => z_mean i + Real.exp (0.5 * z_log_var i) * epsilon i

/-- The per-sample KL summand of source line 133:
`-0.5 * sum(1 + z_log_var - square(z_mean) - exp(z_log_var), axis=-1)`. -/
noncomputable def kl_term (z_mean z_log_var : Lat) : ℝ :=
  -0.5 * ∑ i, (1 + z_log_var i - (z_mean i) ^ 2 - Real.exp (z_log_var i))

/-- `kl_loss` (source line 133): the batch mean (`K.mean`) of the
per-sample KL summands, over a batch of (`z_mean`, `z_log_var`) pairs. -/
noncomputable def kl_loss (zs : List (Lat × Lat)) : ℝ :=
  (zs.map fun p => kl_term p.1 p.2).sum / zs.length

/-- A semantic interpretation of the three weight-bearing networks and the
sampler, over a carrier `V` of tensor values.  Each network is one field
because each is instantiated exactly once in the source (lines 74, 77,
107-108); every invocation inside every composite graph is interpreted by
that one field, which is what weight sharing means denotationally. -/
structure NetSem (V : Type) where
  enc : Fin 2 → V → V
  dec : V → V
  dis : Fin 2 → V → V
  smp : V → V → V → V

/-- Evaluate a graph node under an interpretation `S`, graph inputs `x` and
`zp`, and noise draw `eps`. -/
def evalT {V : Type} (S : NetSem V) (x zp eps : V) : TExpr → V
  | TExpr.inputX => x
  | TExpr.inputZp => zp
  | TExpr.epsE => eps
  | TExpr.encOut i t => S.enc i (evalT S x zp eps t)
  | TExpr.sampleE a b c => S.smp (evalT S x zp eps a) (evalT S x zp eps b) (evalT S x zp eps c)
  | TExpr.decOut t => S.dec (evalT S x zp eps t)
  | TExpr.disOut i t => S.dis i (evalT S x zp eps t)

/-- C1 (counterexample): at `recon_vs_gan_weight = 1/2` (with `wdecay = 1`,
`bn_mom = 9/10`, `bn_eps = 1/1000`), `create_models` does not return
exactly 7 graphs. -/
theorem create_models_seven_graphs_cex :
    ¬ ((create_models (1/2) 1 (9/10) (1/1000)).map (fun m => m.toList.length)
        = some 7) := by
  have h : create_models (1/2) 1 (9/10) (1/1000)
      = some (graphsOf (1/2) 1 (9/10) (1/1000)) := by
    unfold create_models
    rw [if_neg (by norm_num)]
  rw [h]
  simp [Models.toList]

/-- C1 (amended): for every `recon_vs_gan_weight` in (0,1) and any
`wdecay`, `bn_mom`, `bn_eps`, `create_models` returns exactly 8 graphs,
named `encoder`, `decoder`, `discriminator`, `e` (encoder_train),
`de` (decoder_train), `di` (discriminator_train), `vae`, `vaegan`. -/
theorem create_models_returns_eight_graphs (w wd bm be : ℚ)
    (h0 : 0 < w) (h1 : w < 1) :
    ∃ m, create_models w wd bm be = some m ∧ m.toList.length = 8
      ∧ m.toList.map Graph.name
          = ["encoder", "decoder", "discriminator", "e", "de", "di", "vae", "vaegan"] := by
  refine ⟨graphsOf w wd bm be, ?_, rfl, rfl⟩
  unfold create_models
  rw [if_neg (sub_ne_zero.mpr (ne_of_gt h1))]

/-- C1 (witness): the amended statement instantiated at
`recon_vs_gan_weight = 1/3`, `wdecay = 2`, `bn_mom = 1/2`,
`bn_eps = 1/100`. -/
theorem create_models_returns_eight_graphs_witness :
    (0 : ℚ) < 1/3 ∧ (1/3 : ℚ) < 1 ∧
    ∃ m, create_models (1/3) 2 (1/2) (1/100) = some m ∧ m.toList.length = 8
      ∧ m.toList.map Graph.name
          = ["encoder", "decoder", "discriminator", "e", "de", "di", "vae", "vaegan"] :=
  ⟨by norm_num, by norm_num,
   create_models_returns_eight_graphs (1/3) 2 (1/2) (1/100) (by norm_num) (by norm_num)⟩

/-- C2: the decoder is a single shared instance.  Replacing the decoder's
semantic function (its weights) by `d'` while leaving the encoder,
discriminator and sampler untouched changes the standalone `decoder`
graph's output to `d' zp`, changes `vae`'s output to `d'` applied to the
unchanged latent sample, and changes `decoder_train`'s two realism outputs
to the discriminator applied to `d'` of the unchanged latent sample and of
`zp` respectively: all three graphs see the identical change, through the
one shared parameter set, and the latent sample itself is unchanged. -/
theorem decoder_weight_sharing (V : Type) (S : NetSem V) (d' : V → V)
    (x zp eps : V) (w wd bm be : ℚ) :
    ((graphsOf w wd bm be).decoder.outputs.map (evalT {S with dec := d'} x zp eps))
        = [d' zp]
  ∧ ((graphsOf w wd bm be).vae.outputs.map (evalT {S with dec := d'} x zp eps))
        = [d' (evalT S x zp eps zE)]
  ∧ ((graphsOf w wd bm be).decoder_train.outputs.map (evalT {S with dec := d'} x zp eps))
        = [S.dis 0 (d' (evalT S x zp eps zE)), S.dis 0 (d' zp)]
  ∧ evalT {S with dec := d'} x zp eps zE = evalT S x zp eps zE :=
  ⟨rfl, rfl, rfl, rfl⟩

/-- C3: the latent sampler returns exactly
`z_mean + exp(0.5 * z_log_var) * epsilon`; equivalently (comment at source
lines 57-59) `z_mean + sqrt(var) * epsilon` with `var = exp(z_log_var)`. -/
theorem sampling_reparameterization (z_mean z_log_var epsilon : Lat) :
    sampling z_mean z_log_var epsilon
        = (fun i => z_mean i + Real.exp (0.5 * z_log_var i) * epsilon i)
  ∧ sampling z_mean z_log_var epsilon
        = (fun i => z_mean i + Real.sqrt (Real.exp (z_log_var i)) * epsilon i) := by
  refine ⟨rfl, ?_⟩
  funext i
  have h : Real.exp (z_log_var i) = (Real.exp (0.5 * z_log_var i)) ^ 2 := by
    rw [sq, ← Real.exp_add]
    ring_nf
  rw [sampling, h, Real.sqrt_sq (Real.exp_nonneg _)]

/-- C4: the first loss bound to `encoder_train` is the KL loss on
(`z_mean`, `z_log_var`); the KL loss is the batch mean of
`-0.5 * sum(1 + z_log_var - z_mean^2 - exp(z_log_var))` over the latent
axis; and on any batch in which every sample has `z_mean = 0` and
`z_log_var = 0` it equals 0. -/
theorem kl_loss_encoder_train (w wd bm be : ℚ) (zs : List (Lat × Lat))
    (hz : ∀ p ∈ zs, p.1 = 0 ∧ p.2 = 0) :
    (graphsOf w wd bm be).encoder_train.losses.head? = some (LossExpr.kl zMeanE zLogVarE)
  ∧ (∀ bs : List (Lat × Lat),
      kl_loss bs
        = (bs.map fun p =>
            -0.5 * ∑ i, (1 + p.2 i - (p.1 i) ^ 2 - Real.exp (p.2 i))).sum / bs.length)
  ∧ kl_loss zs = 0 := by
  refine ⟨rfl, fun bs => rfl, ?_⟩
  have hterm : ∀ p ∈ zs, kl_term p.1 p.2 = 0 := by
    intro p hp
    obtain ⟨h1, h2⟩ := hz p hp
    simp [kl_term, h1, h2, Real.exp_zero]
  have hsum : (zs.map fun p => kl_term p.1 p.2).sum = 0 := by
    apply List.sum_eq_zero
    intro r hr
    obtain ⟨p, hp, hpr⟩ := List.mem_map.mp hr
    rw [← hpr]
    exact hterm p hp
  rw [kl_loss, hsum, zero_div]

/-- C4 (witness): on the singleton batch with `z_mean = 0`, `z_log_var = 0`
the KL loss evaluates to 0 (at `recon_vs_gan_weight = 1/2`, `wdecay = 1`,
`bn_mom = 9/10`, `bn_eps = 1/1000`). -/
theorem kl_loss_encoder_train_witness :
    kl_loss [((0 : Lat), (0 : Lat))] = 0 :=
  (kl_loss_encoder_train (1/2) 1 (9/10) (1/1000) [((0 : Lat), (0 : Lat))]
    (by intro p hp; simp only [List.mem_singleton] at hp; rw [hp]; exact ⟨rfl, rfl⟩)).2.2

/-- C5: the single loss bound to `decoder_train` is the feature-similarity
loss scaled by `recon_vs_gan_weight / (1 - recon_vs_gan_weight)`, and its
numeric value on a batch where the similarity loss has value `L` is exactly
that factor times `L`. -/
theorem decoder_train_loss_scaling (w wd bm be : ℚ) (h0 : 0 < w) (h1 : w < 1)
    (L K : ℝ) :
    (graphsOf w wd bm be).decoder_train.losses
        = [LossExpr.scale (w / (1 - w))
            (LossExpr.nll (TExpr.disOut 1 xE) (TExpr.disOut 1 xTildeE))]
  ∧ (graphsOf w wd bm be).decoder_train.losses.map (lossVal L K)
        = [((w / (1 - w) : ℚ) : ℝ) * L] :=
  ⟨rfl, rfl⟩

/-- C5 (witness): at `recon_vs_gan_weight = 1/2` and similarity-loss value
`L = 3`, the bound loss of `decoder_train` evaluates to
`(1/2)/(1 - 1/2) * 3`. -/
theorem decoder_train_loss_scaling_witness :
    (0 : ℚ) < 1/2 ∧ (1/2 : ℚ) < 1 ∧
    (graphsOf (1/2) 1 (9/10) (1/1000)).decoder_train.losses.map (lossVal 3 0)
        = [(((1:ℚ)/2 / (1 - 1/2) : ℚ) : ℝ) * 3] :=
  ⟨by norm_num, by norm_num,
   (decoder_train_loss_scaling (1/2) 1 (9/10) (1/1000) (by norm_num) (by norm_num) 3 0).2⟩

/-- C6: for every `recon_vs_gan_weight` in (0,1) the denominator
`1 - recon_vs_gan_weight` is nonzero, the normalization succeeds with value
`w / (1 - w)`, and `create_models` returns its models; at
`recon_vs_gan_weight = 1` the division by zero aborts the normalization and
`create_models` returns nothing. -/
theorem recon_weight_normalization (w wd bm be : ℚ) (h0 : 0 < w) (h1 : w < 1) :
    1 - w ≠ 0
  ∧ normalized_weight w = some (w / (1 - w))
  ∧ create_models w wd bm be = some (graphsOf w wd bm be)
  ∧ normalized_weight 1 = none
  ∧ create_models 1 wd bm be = none := by
  have hne : 1 - w ≠ 0 := sub_ne_zero.mpr (ne_of_gt h1)
  refine ⟨hne, ?_, ?_, ?_, ?_⟩
  · unfold normalized_weight
    rw [if_neg hne]
  · unfold create_models
    rw [if_neg hne]
  · unfold normalized_weight
    rw [if_pos (by norm_num)]
  · unfold create_models
    rw [if_pos (by norm_num)]

/-- C6 (witness): the normalization behaviour instantiated at
`recon_vs_gan_weight = 3/4`, `wdecay = 1`, `bn_mom = 1/4`, `bn_eps = 1/50`. -/
theorem recon_weight_normalization_witness :
    (0 : ℚ) < 3/4 ∧ (3/4 : ℚ) < 1 ∧
    ((1 : ℚ) - 3/4 ≠ 0
      ∧ normalized_weight (3/4) = some ((3/4) / (1 - 3/4))
      ∧ create_models (3/4) 1 (1/4) (1/50) = some (graphsOf (3/4) 1 (1/4) (1/50))
      ∧ normalized_weight 1 = none
      ∧ create_models 1 1 (1/4) (1/50) = none) :=
  ⟨by norm_num, by norm_num,
   recon_weight_normalization (3/4) 1 (1/4) (1/50) (by norm_num) (by norm_num)⟩

/-- C7 (counterexample): at `wdecay = 1` (with `bn_mom = 9/10`,
`bn_eps = 1/1000000`), not every kernel layer of the encoder carries the L2
regularizer `l2(wdecay)`: the `z_mean`/`z_log_var` heads are built with no
`kernel_regularizer`. -/
theorem encoder_head_regularizer_cex :
    ¬ (∀ l ∈ encoderLayers 1 (9/10) (1/1000000), ∀ p ∈ kernelCfg l,
        p.1 = Initializer.he_uniform ∧ p.2 = some 1) := by
  intro h
  have hmem : Layer.dense 128 none Initializer.he_uniform none
      ∈ encoderLayers 1 (9/10) (1/1000000) := by
    simp [encoderLayers, conv_block_layers]
  have hc := h _ hmem (Initializer.he_uniform, none) (by simp [kernelCfg])
  simp at hc

/-- C7 (amended): in the encoder every convolution and dense kernel uses
He-uniform initialization; the three convolutions and the 1024-unit dense
layer carry L2 weight decay with coefficient `wdecay`, while the two
parallel latent heads `z_mean` and `z_log_var` carry no kernel
regularizer. -/
theorem encoder_kernel_configs (wd bm be : ℚ) :
    (encoderLayers wd bm be).filterMap kernelCfg
      = [(Initializer.he_uniform, some wd), (Initializer.he_uniform, some wd),
         (Initializer.he_uniform, some wd), (Initializer.he_uniform, some wd),
         (Initializer.he_uniform, none), (Initializer.he_uniform, none)] := by
  simp [encoderLayers, conv_block_layers, kernelCfg]

/-- C8: the discriminator's outputs are the pair (realism score, feature
tensor) of the same input; the feature tensor has shape 8x8x256 and is the
output of the bare 256-channel stride-2 convolution, captured immediately
before that stage's batch normalization and activation; the score path ends
in a 1-unit sigmoid dense layer of output shape 1; across all eight
returned graphs no realism-score output contains a feature output in its
dataflow at the composite level, and the feature outputs are consumed
exactly by the Gaussian negative-log-likelihood similarity loss (bound to
`encoder_train` unscaled and to `decoder_train` scaled). -/
theorem discriminator_feature_contract (w wd bm be : ℚ) :
    (graphsOf w wd bm be).discriminator.outputs
        = [TExpr.disOut 0 xE, TExpr.disOut 1 xE]
  ∧ shapeThrough (discFeatStack wd bm be) (Shape.t3 64 64 3)
        = some (Shape.t3 8 8 256)
  ∧ discriminatorLayers wd bm be
        = discFeatStack wd bm be
          ++ (Layer.batchNorm bm be :: Layer.leakyReLU leaky_relu_alpha ::
              discScoreTail wd)
  ∧ (discFeatStack wd bm be).getLast?
        = some (Layer.conv2d 256 5 2 (some wd) Initializer.he_uniform none)
  ∧ (discriminatorLayers wd bm be).getLast?
        = some (Layer.dense 1 (some wd) Initializer.he_uniform (some Act.sigmoid))
  ∧ shapeThrough (discriminatorLayers wd bm be) (Shape.t3 64 64 3)
        = some (Shape.t1 1)
  ∧ ((graphsOf w wd bm be).toList.all fun g =>
        g.outputs.all fun o => !(isScore o) || !(mentionsFeature o)) = true
  ∧ (graphsOf w wd bm be).encoder_train.losses.getLast?
        = some (LossExpr.nll (TExpr.disOut 1 xE) (TExpr.disOut 1 xTildeE))
  ∧ (graphsOf w wd bm be).decoder_train.losses
        = [LossExpr.scale (w / (1 - w))
            (LossExpr.nll (TExpr.disOut 1 xE) (TExpr.disOut 1 xTildeE))] := by
  refine ⟨rfl, by rfl, ?_, by rfl, by rfl, by rfl, by rfl, rfl, rfl⟩
  simp [discriminatorLayers]

/-- C9: across the three networks the batch-normalization configurations
are, in layer order: encoder `[(bn_mom, bn_eps), (bn_mom, bn_eps),
(bn_mom, bn_eps), default]`, decoder `[default, (bn_mom, bn_eps),
(bn_mom, bn_eps), (bn_mom, bn_eps)]`, discriminator `[(bn_mom, bn_eps),
(bn_mom, bn_eps), (bn_mom, bn_eps), default]`, where `default` is the
framework's `(99/100, 1/1000)`.  So `bn_mom` and `bn_eps` configure only
the `conv_block` batch norms and the discriminator's post-feature batch
norm, and the three dense-side batch norms are constants independent of
them. -/
theorem bn_hyperparameter_scope (wd bm be : ℚ) :
    (encoderLayers wd bm be).filterMap bnCfg
        = [(bm, be), (bm, be), (bm, be), (99/100, 1/1000)]
  ∧ (decoderLayers wd bm be).filterMap bnCfg
        = [(99/100, 1/1000), (bm, be), (bm, be), (bm, be)]
  ∧ (discriminatorLayers wd bm be).filterMap bnCfg
        = [(bm, be), (bm, be), (bm, be), (99/100, 1/1000)] := by
  refine ⟨?_, ?_, ?_⟩
  · simp [encoderLayers, conv_block_layers, bnCfg, bnDefaultMomentum, bnDefaultEpsilon]
  · simp [decoderLayers, conv_block_layers, bnCfg, bnDefaultMomentum, bnDefaultEpsilon]
  · simp [discriminatorLayers, discFeatStack, discScoreTail, conv_block_layers, bnCfg,
      bnDefaultMomentum, bnDefaultEpsilon]

/-- C10: `vae`'s output is the decoder applied to the sampler node, not to
`z_mean`; consequently there is an interpretation whose sampler is the
concrete reparameterization `sampling` together with an input image and two
distinct noise draws under which the two evaluations of `vae`'s output
differ: `vae` is not a deterministic function of the image alone. -/
theorem vae_output_noise_dependent :
    (graphsOf (1/2) 1 (9/10) (1/1000)).vae.outputs
        = [TExpr.decOut (TExpr.sampleE zMeanE zLogVarE TExpr.epsE)]
  ∧ ∃ (S : NetSem Lat) (x zp eps eps' : Lat),
      S.smp = sampling ∧ eps ≠ eps' ∧
      evalT S x zp eps xTildeE ≠ evalT S x zp eps' xTildeE := by
  refine ⟨rfl, ⟨⟨fun _ v => v, id, fun _ v => v, sampling⟩, 0, 0, 0, (fun _ => 1),
    rfl, ?_, ?_⟩⟩
  · intro h
    have h0 := congrFun h ⟨0, by norm_num [latent_dim]⟩
    norm_num at h0
  · intro h
    have h0 := congrFun h ⟨0, by norm_num [latent_dim]⟩
    simp [evalT, sampling, Real.exp_zero, xTildeE, zE, zMeanE, zLogVarE, xE] at h0

end VaeGan
